import Mathlib

/-!
Shallow embedding of `src/node.py` (class `PureP2PNetwork`), a peer-to-peer
chat node.  Python dicts are modelled as insertion-ordered association lists:
`d[k] = v` overwrites an existing key in place and otherwise appends the new
key at the end, `d[k]` / `d.get(k)` returns the first (unique) binding, and
`k in d` tests membership.  The pickle file on disk is modelled as a tree of
untyped values (`PValue`); `pickle.dump` is an encoder into that tree and
`pickle.load` a decoder out of it.  Network and console effects (socket sends,
prints, `input()`) are modelled explicitly: outbound `send_direct_message`
calls are collected in a list together with their destination, the boolean
outcome of each real socket operation is a parameter of the embedding, and
each print that surfaces an event to the user is recorded as a `Notification`.
-/

namespace P2P

/-- `d[k] = v` on a Python dict modelled as an insertion-ordered association
list: overwrite in place if the key exists, else append at the end. -/
def dictSet {β : Type} : List (String × β) → String → β → List (String × β)
  | [], k, v => [(k, v)]
  | (k', v') :: rest, k, v =>
      if k' = k then (k, v) :: rest else (k', v') :: dictSet rest k v

/-- `d.get(k)` on a Python dict: the value bound to `k`, if any. -/
def dictGet {β : Type} : List (String × β) → String → Option β
  | [], _ => none
  | (k', v') :: rest, k => if k' = k then some v' else dictGet rest k

/-- `d.get(k, default)` on a Python dict. -/
def dictGetD {β : Type} (l : List (String × β)) (k : String) (d : β) : β :=
  (dictGet l k).getD d

/-- `k in d` on a Python dict. -/
def dictContains {β : Type} (l : List (String × β)) (k : String) : Bool :=
  (dictGet l k).isSome

theorem dictGet_dictSet_self {β : Type} (l : List (String × β)) (k : String) (v : β) :
    dictGet (dictSet l k v) k = some v := by
  induction l with
  | nil => simp [dictSet, dictGet]
  | cons kv rest ih =>
      obtain ⟨k', v'⟩ := kv
      by_cases h : k' = k <;> simp [dictSet, dictGet, h, ih]

theorem dictGet_dictSet_ne {β : Type} (l : List (String × β)) (k q : String) (v : β)
    (h : q ≠ k) : dictGet (dictSet l k v) q = dictGet l q := by
  induction l with
  | nil => simp [dictSet, dictGet, Ne.symm h]
  | cons kv rest ih =>
      obtain ⟨k', v'⟩ := kv
      by_cases hk : k' = k
      · subst hk
        simp [dictSet, dictGet, Ne.symm h]
      · simp [dictSet, dictGet, hk, ih]

theorem dictGet_eq_none_of_not_contains {β : Type} (l : List (String × β)) (k : String)
    (h : dictContains l k = false) : dictGet l k = none := by
  unfold dictContains at h
  cases hg : dictGet l k <;> simp [hg] at h ⊢

theorem dictContains_dictSet_self {β : Type} (l : List (String × β)) (k : String) (v : β) :
    dictContains (dictSet l k v) k = true := by
  simp [dictContains, dictGet_dictSet_self]

/-- The `direction` field of a stored chat message: `'incoming'` or
`'outgoing'` in the Python dict literals. -/
inductive Direction : Type
  | incoming : Direction
  | outgoing : Direction
deriving DecidableEq, Repr

/-- One stored chat message, the dict
`{'time': ..., 'from': ..., 'content': ..., 'direction': ...}`
appended to `self.conversations[...]` in `node.py`. -/
structure Message : Type where
  time : String
  «from» : String
  content : String
  direction : Direction
deriving DecidableEq, Repr

/-- One friend entry, the dict `{'ip': ..., 'port': ..., 'connected': ...}`
stored in `self.friends[username]`. -/
structure FriendRecord : Type where
  ip : String
  port : Nat
  connected : Bool
deriving DecidableEq, Repr

/-- The three durable maps of the node, the dict written by `save_data`:
`{'friends': ..., 'conversations': ..., 'friend_requests': ...}`.
`friend_requests` maps a username to the `(ip, port)` tuple stored by
`add_friend`. -/
structure Snapshot : Type where
  friends : List (String × FriendRecord)
  conversations : List (String × List Message)
  friend_requests : List (String × (String × Nat))
deriving DecidableEq, Repr

/-- The untyped value tree that the pickle file holds: Python strings,
ints, bools, lists/tuples and string-keyed dicts, which is every shape
`save_data` ever writes. -/
inductive PValue : Type
  | pstr : String → PValue
  | pnat : Nat → PValue
  | pbool : Bool → PValue
  | plist : List PValue → PValue
  | pdict : List (String × PValue) → PValue

/-- Serialize a `direction` field. -/
def encodeDirection : Direction → PValue
  | Direction.incoming => PValue.pstr "incoming"
  | Direction.outgoing => PValue.pstr "outgoing"

/-- Serialize one stored message dict. -/
def encodeMessage (m : Message) : PValue :=
  PValue.pdict [("time", PValue.pstr m.time), ("from", PValue.pstr m.«from»),
    ("content", PValue.pstr m.content), ("direction", encodeDirection m.direction)]

/-- Serialize one friend entry dict. -/
def encodeFriendRecord (r : FriendRecord) : PValue :=
  PValue.pdict [("ip", PValue.pstr r.ip), ("port", PValue.pnat r.port),
    ("connected", PValue.pbool r.connected)]

/-- Serialize one pending-request `(ip, port)` tuple. -/
def encodePending (p : String × Nat) : PValue :=
  PValue.plist [PValue.pstr p.1, PValue.pnat p.2]

/-- Serialize a string-keyed dict, value by value. -/
def encodeStrMap {α : Type} (f : α → PValue) (l : List (String × α)) : PValue :=
  PValue.pdict (l.map (fun kv => (kv.1, f kv.2)))

/-- `pickle.dump` of the dict built in `save_data`. -/
def pickleSnapshot (s : Snapshot) : PValue :=
  PValue.pdict
    [("friends", encodeStrMap encodeFriendRecord s.friends),
     ("conversations", encodeStrMap (fun ms => PValue.plist (ms.map encodeMessage)) s.conversations),
     ("friend_requests", encodeStrMap encodePending s.friend_requests)]

/-- Reconstruct a `direction` field from the pickled tree. -/
def decodeDirection : PValue → Option Direction
  | PValue.pstr "incoming" => some Direction.incoming
  | PValue.pstr "outgoing" => some Direction.outgoing
  | _ => none

/-- Reconstruct one stored message dict from the pickled tree. -/
def decodeMessage : PValue → Option Message
  | PValue.pdict [("time", PValue.pstr t), ("from", PValue.pstr f),
      ("content", PValue.pstr c), ("direction", d)] =>
      (decodeDirection d).map (fun dir => ⟨t, f, c, dir⟩)
  | _ => none

/-- Reconstruct one friend entry dict from the pickled tree. -/
def decodeFriendRecord : PValue → Option FriendRecord
  | PValue.pdict [("ip", PValue.pstr ip), ("port", PValue.pnat p),
      ("connected", PValue.pbool c)] => some ⟨ip, p, c⟩
  | _ => none

/-- Reconstruct one pending-request tuple from the pickled tree. -/
def decodePending : PValue → Option (String × Nat)
  | PValue.plist [PValue.pstr ip, PValue.pnat p] => some (ip, p)
  | _ => none

/-- Reconstruct a list element by element, in order; any malformed element
makes the whole load fail (the `except` branch of `load_data`). -/
def decodeEach {α : Type} (f : PValue → Option α) : List PValue → Option (List α)
  | [] => some []
  | v :: vs =>
      match f v, decodeEach f vs with
      | some a, some tail => some (a :: tail)
      | _, _ => none

/-- Reconstruct the entries of a string-keyed dict, in order. -/
def decodeEntries {α : Type} (f : PValue → Option α) :
    List (String × PValue) → Option (List (String × α))
  | [] => some []
  | (k, v) :: rest =>
      match f v, decodeEntries f rest with
      | some a, some tail => some ((k, a) :: tail)
      | _, _ => none

/-- Reconstruct a string-keyed dict from the pickled tree. -/
def decodeStrMap {α : Type} (f : PValue → Option α) : PValue → Option (List (String × α))
  | PValue.pdict entries => decodeEntries f entries
  | _ => none

/-- Reconstruct the list stored under one conversation key. -/
def decodeMessages : PValue → Option (List Message)
  | PValue.plist ms => decodeEach decodeMessage ms
  | _ => none

/-- `pickle.load` followed by the three `data.get(..., {})` reads of
`load_data` (lines 50-53 of `node.py`): a non-dict file or any malformed
entry takes the `except` branch, modelled as `none`. -/
def unpickleSnapshot : PValue → Option Snapshot
  | PValue.pdict entries =>
      match decodeStrMap decodeFriendRecord (dictGetD entries "friends" (PValue.pdict [])),
        decodeStrMap decodeMessages (dictGetD entries "conversations" (PValue.pdict [])),
        decodeStrMap decodePending (dictGetD entries "friend_requests" (PValue.pdict [])) with
      | some f, some c, some p => some ⟨f, c, p⟩
      | _, _, _ => none
  | _ => none

theorem decodeDirection_encodeDirection (d : Direction) :
    decodeDirection (encodeDirection d) = some d := by
  cases d <;> rfl

theorem decodeMessage_encodeMessage (m : Message) :
    decodeMessage (encodeMessage m) = some m := by
  obtain ⟨t, f, c, d⟩ := m
  cases d <;> rfl

theorem decodeFriendRecord_encodeFriendRecord (r : FriendRecord) :
    decodeFriendRecord (encodeFriendRecord r) = some r := by
  obtain ⟨ip, p, c⟩ := r
  rfl

theorem decodePending_encodePending (p : String × Nat) :
    decodePending (encodePending p) = some p := by
  obtain ⟨ip, q⟩ := p
  rfl

theorem decodeEach_map {α : Type} (f : PValue → Option α) (g : α → PValue)
    (h : ∀ x, f (g x) = some x) (l : List α) :
    decodeEach f (l.map g) = some l := by
  induction l with
  | nil => rfl
  | cons x xs ih => simp [decodeEach, h, ih]

theorem decodeEntries_map {α : Type} (f : PValue → Option α) (g : α → PValue)
    (h : ∀ x, f (g x) = some x) (l : List (String × α)) :
    decodeEntries f (l.map (fun kv => (kv.1, g kv.2))) = some l := by
  induction l with
  | nil => rfl
  | cons kv rest ih =>
      obtain ⟨k, v⟩ := kv
      simp [decodeEntries, h, ih]

theorem decodeStrMap_encodeStrMap {α : Type} (f : PValue → Option α) (g : α → PValue)
    (h : ∀ x, f (g x) = some x) (l : List (String × α)) :
    decodeStrMap f (encodeStrMap g l) = some l := by
  simp [decodeStrMap, encodeStrMap, decodeEntries_map f g h]

theorem decodeMessages_encode (ms : List Message) :
    decodeMessages (PValue.plist (ms.map encodeMessage)) = some ms := by
  simp [decodeMessages, decodeEach_map decodeMessage encodeMessage decodeMessage_encodeMessage]

/-- Unpickling a pickled snapshot reconstructs it exactly. -/
theorem unpickleSnapshot_pickleSnapshot (s : Snapshot) :
    unpickleSnapshot (pickleSnapshot s) = some s := by
  obtain ⟨f, c, p⟩ := s
  simp [pickleSnapshot, unpickleSnapshot, dictGetD, dictGet,
    decodeStrMap_encodeStrMap decodeFriendRecord encodeFriendRecord
      decodeFriendRecord_encodeFriendRecord,
    decodeStrMap_encodeStrMap decodeMessages _ decodeMessages_encode,
    decodeStrMap_encodeStrMap decodePending encodePending decodePending_encodePending]

/-- The mutable state of one `PureP2PNetwork` instance that the claims are
about: identity, the three durable maps, the active-chat marker, and the
contents of the data file on disk (`none` while no file exists). -/
structure NodeState : Type where
  username : String
  port : Nat
  friends : List (String × FriendRecord)
  friend_requests : List (String × (String × Nat))
  conversations : List (String × List Message)
  current_chat : Option String
  data_file : Option PValue

/-- `save_data` (lines 58-69): pickle the three maps into the data file.
The bare `except: pass` only fires on an OS-level write failure, which is
outside the embedding; the successful write is modelled. -/
def save_data (self : NodeState) : NodeState :=
  { self with
    data_file := some (pickleSnapshot ⟨self.friends, self.conversations, self.friend_requests⟩) }

/-- `load_data` (lines 45-56): if the data file exists, unpickle it and
take the three maps with `data.get(..., {})` defaults; on any failure keep
the current maps (the `except` branch). -/
def load_data (self : NodeState) : NodeState :=
  match self.data_file with
  | none => self
  | some v =>
      match unpickleSnapshot v with
      | none => self
      | some s =>
          { self with
            friends := s.friends
            conversations := s.conversations
            friend_requests := s.friend_requests }

/-- One wire-protocol message, the JSON dicts built and parsed in
`node.py`; `from_user`, `from_ip`, `from_port` and `content` are its
fields. -/
inductive ProtoMsg : Type
  | friend_request : String → String → Nat → ProtoMsg
  | friend_accept : String → ProtoMsg
  | friend_reject : String → ProtoMsg
  | chat_message : String → String → ProtoMsg
deriving DecidableEq, Repr

/-- One print of `node.py` that surfaces an event to the local user. -/
inductive Notification : Type
  | friendRequestFrom : String → Notification
  | nowFriend : String → Notification
  | rejectedPeer : String → Notification
  | acceptedYou : String → Notification
  | rejectedYou : String → Notification
  | chatAlert : String → String → String → Notification
  | notFriendErr : String → Notification
  | sentOk : String → Notification
  | sendFailed : Notification
deriving DecidableEq, Repr

/-- Result of processing one inbound message: the new node state, the
`send_direct_message` calls made (destination ip, port, message), and the
event prints. -/
structure ProcResult : Type where
  state : NodeState
  sent : List (String × Nat × ProtoMsg)
  notes : List Notification

/-- The message-storing lines that appear verbatim twice in `node.py`
(the `chat_message` branch, lines 168-176, and the sent-message branch of
`chat_with_friend`, lines 301-309): create the conversation list if the
key is absent, then append the message to it. -/
def storeMessage (conversations : List (String × List Message)) (key : String)
    (m : Message) : List (String × List Message) :=
  let conversations :=
    if dictContains conversations key then conversations
    else dictSet conversations key []
  dictSet conversations key (dictGetD conversations key [] ++ [m])

/-- `process_incoming_message` (lines 115-182).  `accept` is the local
user's reply to the `Accept? (y/n)` prompt in the `friend_request` branch
(`true` exactly when the reply is `y`); `timestamp` is the
`datetime.now().strftime` result used in the `chat_message` branch. -/
def process_incoming_message (self : NodeState) (message : ProtoMsg)
    (accept : Bool) (timestamp : String) : ProcResult :=
  match message with
  | ProtoMsg.friend_request from_user from_ip from_port =>
      if accept then
        let self := { self with
          friends := dictSet self.friends from_user ⟨from_ip, from_port, true⟩ }
        let self := save_data self
        { state := self,
          sent := [(from_ip, from_port, ProtoMsg.friend_accept self.username)],
          notes := [Notification.friendRequestFrom from_user, Notification.nowFriend from_user] }
      else
        { state := self,
          sent := [(from_ip, from_port, ProtoMsg.friend_reject self.username)],
          notes := [Notification.friendRequestFrom from_user, Notification.rejectedPeer from_user] }
  | ProtoMsg.friend_accept from_user =>
      { state := self, sent := [], notes := [Notification.acceptedYou from_user] }
  | ProtoMsg.friend_reject from_user =>
      { state := self, sent := [], notes := [Notification.rejectedYou from_user] }
  | ProtoMsg.chat_message from_user content =>
      let self := { self with
        conversations := storeMessage self.conversations from_user
          ⟨timestamp, from_user, content, Direction.incoming⟩ }
      let self := save_data self
      { state := self, sent := [],
        notes :=
          if self.current_chat = some from_user then []
          else [Notification.chatAlert timestamp from_user content] }

/-- `handle_connection` (lines 103-113): read once, decode, process.
`decoded` is `none` on an empty read or a `json.loads` failure (the
`except: pass`); the returned flag records that the socket is closed in
the `finally` block on every path. -/
def handle_connection (self : NodeState) (decoded : Option ProtoMsg)
    (accept : Bool) (timestamp : String) : ProcResult × Bool :=
  match decoded with
  | none => ({ state := self, sent := [], notes := [] }, true)
  | some m => (process_incoming_message self m accept timestamp, true)

/-- Result of `add_friend`: the new state, the send attempts, and the
Python return value — `add_friend` has no `return` statement, so it
returns `None` on every path, modelled as `ret = none` (a `bool` return
would be `some b`). -/
structure AddFriendResult : Type where
  state : NodeState
  sent : List (String × Nat × ProtoMsg)
  ret : Option Bool

/-- `add_friend` (lines 196-211), the outbound friend request.  `local_ip`
is the `get_local_ip()` result and `sendOk` the boolean outcome of the
one-shot `send_direct_message` socket operation. -/
def add_friend (self : NodeState) (username ip : String) (port : Nat)
    (local_ip : String) (sendOk : Bool) : AddFriendResult :=
  let msg := ProtoMsg.friend_request self.username local_ip self.port
  let success := sendOk
  if success then
    let self := { self with friend_requests := dictSet self.friend_requests username (ip, port) }
    let self := save_data self
    { state := self, sent := [(ip, port, msg)], ret := none }
  else
    { state := self, sent := [(ip, port, msg)], ret := none }

/-- `str.lower()` as used for the `exit` check in `chat_with_friend`:
lower-case the string character by character. -/
def pyLower (s : String) : String :=
  String.mk (s.data.map Char.toLower)

/-- One iteration of the interactive loop in `chat_with_friend`: the text
the user typed (already `.strip()`-ped), the `datetime.now().strftime`
timestamp of the iteration, and the boolean outcome of the one-shot
`send_direct_message` socket operation for it. -/
structure ChatInput : Type where
  text : String
  time : String
  sendOk : Bool
deriving Repr

/-- Result of `chat_with_friend`: the new state, the send attempts, the
event prints, and the Python return value — the function has no `return`
statement, so it returns `None` on every path, modelled as `ret = none`. -/
structure ChatResult : Type where
  state : NodeState
  sent : List (String × Nat × ProtoMsg)
  notes : List Notification
  ret : Option Bool

/-- The `while self.current_chat == username` loop of `chat_with_friend`
(lines 278-322).  `friend_info` is the record looked up once before the
loop; a failed send flips its stored `connected` flag to `False` (in
Python `friend_info` aliases `self.friends[username]`, and only `ip` and
`port` — which never change — are read from it afterwards). -/
def chat_loop (self : NodeState) (username : String) (friend_info : FriendRecord) :
    List ChatInput → NodeState × List (String × Nat × ProtoMsg) × List Notification
  | [] => (self, [], [])
  | inp :: rest =>
      if self.current_chat ≠ some username then (self, [], [])
      else if pyLower inp.text = "exit" then ({ self with current_chat := none }, [], [])
      else if inp.text = "" then chat_loop self username friend_info rest
      else
        let attempt := (friend_info.ip, friend_info.port,
          ProtoMsg.chat_message self.username inp.text)
        if inp.sendOk then
          let self := { self with
            conversations := storeMessage self.conversations username
              ⟨inp.time, self.username, inp.text, Direction.outgoing⟩ }
          let self := save_data self
          let r := chat_loop self username friend_info rest
          (r.1, attempt :: r.2.1, Notification.sentOk inp.text :: r.2.2)
        else
          let self := { self with
            friends := dictSet self.friends username ⟨friend_info.ip, friend_info.port, false⟩ }
          let r := chat_loop self username friend_info rest
          (r.1, attempt :: r.2.1, Notification.sendFailed :: r.2.2)

/-- `chat_with_friend` (lines 263-322): reject non-friends, otherwise set
`current_chat` and run the interactive loop over the given inputs. -/
def chat_with_friend (self : NodeState) (username : String)
    (inputs : List ChatInput) : ChatResult :=
  match dictGet self.friends username with
  | none =>
      { state := self, sent := [], notes := [Notification.notFriendErr username], ret := none }
  | some friend_info =>
      let self := { self with current_chat := some username }
      let r := chat_loop self username friend_info inputs
      { state := r.1, sent := r.2.1, notes := r.2.2, ret := none }

/-- The snapshot a node state would pickle: its three durable maps. -/
def snapshotOf (self : NodeState) : Snapshot :=
  ⟨self.friends, self.conversations, self.friend_requests⟩

/-- The data file holds exactly the pickled current maps, i.e. the last
`save_data` happened after the last mutation. -/
def persisted (self : NodeState) : Prop :=
  self.data_file = some (pickleSnapshot (snapshotOf self))

theorem storeMessage_get (C : List (String × List Message)) (u : String) (m : Message) :
    dictGet (storeMessage C u m) u = some (dictGetD C u [] ++ [m]) := by
  cases hc : dictContains C u with
  | true => simp [storeMessage, hc, dictGetD, dictGet_dictSet_self]
  | false =>
      have hn := dictGet_eq_none_of_not_contains C u hc
      simp [storeMessage, hc, dictGetD, dictGet_dictSet_self, hn]

theorem storeMessage_getD (C : List (String × List Message)) (u : String) (m : Message) :
    dictGetD (storeMessage C u m) u [] = dictGetD C u [] ++ [m] := by
  simp [dictGetD, storeMessage_get]

theorem storeMessage_contains (C : List (String × List Message)) (u : String) (m : Message) :
    dictContains (storeMessage C u m) u = true := by
  simp [dictContains, storeMessage_get]

/-- A concrete requester node: alice has sent bob a friend request (the
pending entry for bob is outstanding) and has no friends yet. -/
def aliceNode : NodeState :=
  { username := "alice"
    port := 55888
    friends := []
    friend_requests := [("bob", ("10.0.0.5", 55888))]
    conversations := []
    current_chat := none
    data_file := none }

/-- A concrete node whose friends map has one entry, for bob. -/
def aliceWithBob : NodeState :=
  { username := "alice"
    port := 55888
    friends := [("bob", ⟨"10.0.0.5", 55888, true⟩)]
    friend_requests := []
    conversations := []
    current_chat := none
    data_file := none }

/-- Claim C1 counterexample: alice has an outstanding friend request to bob;
processing the incoming `friend_accept` from bob leaves her friends map
without any entry for bob — no FriendRecord is created, contrary to the
claim. -/
theorem friend_accept_no_friend_created_cex :
    dictContains (process_incoming_message aliceNode (ProtoMsg.friend_accept "bob")
      true "12:00:00").state.friends "bob" = false :=
  rfl

/-- Claim C1 (amended): processing an incoming `friend_accept` only notifies
the local user that `from_user` accepted; the node state — in particular the
friends map — is completely unchanged and no reply is sent. -/
theorem friend_accept_notifies_only (st : NodeState) (u t : String) (a : Bool) :
    (process_incoming_message st (ProtoMsg.friend_accept u) a t).state = st
    ∧ (process_incoming_message st (ProtoMsg.friend_accept u) a t).sent = []
    ∧ (process_incoming_message st (ProtoMsg.friend_accept u) a t).notes
        = [Notification.acceptedYou u] :=
  ⟨rfl, rfl, rfl⟩

/-- Claim C2: processing an incoming `chat_message` from peer `u` with
content `c` makes `u`'s conversation equal to the prior sequence with
exactly one incoming Message `{time, from := u, content := c}` appended at
the end, and the data file afterwards holds the pickled post-append
snapshot. -/
theorem chat_message_appends_and_persists (st : NodeState) (u c t : String) (a : Bool) :
    dictGetD (process_incoming_message st (ProtoMsg.chat_message u c) a t).state.conversations u []
      = dictGetD st.conversations u [] ++ [⟨t, u, c, Direction.incoming⟩]
    ∧ persisted (process_incoming_message st (ProtoMsg.chat_message u c) a t).state := by
  constructor
  · simp [process_incoming_message, save_data, storeMessage_getD]
  · rfl

/-- Claim C3: accepting an incoming `friend_request {u, ip, p}` overwrites
the friends map entry for `u` with `{ip, port := p, connected := true}`,
persists the snapshot, and sends a `friend_accept` carrying the local
username back to `ip:p`. -/
theorem friend_request_accept_adds_friend (st : NodeState) (u ip : String) (p : Nat) (t : String) :
    dictGet (process_incoming_message st (ProtoMsg.friend_request u ip p) true t).state.friends u
      = some ⟨ip, p, true⟩
    ∧ persisted (process_incoming_message st (ProtoMsg.friend_request u ip p) true t).state
    ∧ (process_incoming_message st (ProtoMsg.friend_request u ip p) true t).sent
        = [(ip, p, ProtoMsg.friend_accept st.username)] := by
  refine ⟨?_, rfl, rfl⟩
  simp [process_incoming_message, save_data, dictGet_dictSet_self]

/-- Claim C4 counterexample: `add_friend` has no return statement, so even
when the socket send succeeds it returns `None`, not the boolean `True`
the claim requires. -/
theorem add_friend_returns_no_bool_cex :
    (add_friend aliceNode "bob" "10.0.0.5" 55888 "192.168.1.2" true).ret = none
    ∧ (add_friend aliceNode "bob" "10.0.0.5" 55888 "192.168.1.2" true).ret ≠ some true :=
  ⟨rfl, fun h => Option.noConfusion h⟩

/-- Claim C4 (amended): when the one-shot send succeeds, `add_friend`
records the pending request `username -> (ip, port)`, persists the
snapshot, and creates no FriendRecord; it returns no value (`None`) —
the send outcome is only reflected in which branch ran, not returned. -/
theorem add_friend_success_records_pending (st : NodeState) (u ip local_ip : String) (p : Nat) :
    dictGet (add_friend st u ip p local_ip true).state.friend_requests u = some (ip, p)
    ∧ (add_friend st u ip p local_ip true).state.friends = st.friends
    ∧ persisted (add_friend st u ip p local_ip true).state
    ∧ (add_friend st u ip p local_ip true).ret = none := by
  refine ⟨?_, rfl, rfl, rfl⟩
  simp [add_friend, save_data, dictGet_dictSet_self]

/-- Claim C5: calling `chat_with_friend` for a username with no
FriendRecord only prints the not-your-friend error: the entire node state
is returned unchanged, nothing is sent, and nothing is returned. -/
theorem chat_with_friend_not_friend_unchanged (st : NodeState) (u : String)
    (inputs : List ChatInput) (h : dictContains st.friends u = false) :
    chat_with_friend st u inputs
      = { state := st, sent := [], notes := [Notification.notFriendErr u], ret := none } := by
  have hn := dictGet_eq_none_of_not_contains st.friends u h
  simp [chat_with_friend, hn]

/-- Claim C5 witness: carol is not a friend of the concrete node and the
call leaves it unchanged. -/
theorem chat_with_friend_not_friend_unchanged_witness :
    dictContains aliceNode.friends "carol" = false
    ∧ chat_with_friend aliceNode "carol" []
      = { state := aliceNode, sent := [], notes := [Notification.notFriendErr "carol"],
          ret := none } :=
  ⟨rfl, chat_with_friend_not_friend_unchanged aliceNode "carol" [] rfl⟩

/-- Claim C6 counterexample: with bob a friend and the send failing,
`chat_with_friend` — which has no return statement — returns `None`, not
the `False` the claim requires. -/
theorem chat_send_failure_returns_no_bool_cex :
    (chat_with_friend aliceWithBob "bob" [⟨"hello", "12:00:00", false⟩]).ret = none
    ∧ (chat_with_friend aliceWithBob "bob" [⟨"hello", "12:00:00", false⟩]).ret ≠ some false :=
  ⟨rfl, fun h => Option.noConfusion h⟩

/-- Claim C6 (amended): for a friend `u`, sending one nonempty non-exit
chat line: if the one-shot send succeeds, an outgoing Message from the
local username is appended to `u`'s conversation and the snapshot is
persisted; if the send fails, `u`'s FriendRecord keeps its endpoint but
gets `connected := false` and the failure is only printed — the operation
itself returns no value (`None`), not `False`. -/
theorem chat_with_friend_send_outcomes (st : NodeState) (u text t : String)
    (fr : FriendRecord) (hfr : dictGet st.friends u = some fr)
    (hne : ¬ text = "") (hex : ¬ pyLower text = "exit") :
    dictGetD (chat_with_friend st u [⟨text, t, true⟩]).state.conversations u []
      = dictGetD st.conversations u [] ++ [⟨t, st.username, text, Direction.outgoing⟩]
    ∧ persisted (chat_with_friend st u [⟨text, t, true⟩]).state
    ∧ dictGet (chat_with_friend st u [⟨text, t, false⟩]).state.friends u
      = some ⟨fr.ip, fr.port, false⟩
    ∧ (chat_with_friend st u [⟨text, t, false⟩]).notes = [Notification.sendFailed]
    ∧ (chat_with_friend st u [⟨text, t, false⟩]).ret = none := by
  refine ⟨?_, ?_, ?_, ?_, ?_⟩ <;>
    simp [chat_with_friend, hfr, chat_loop, hne, hex, save_data, persisted, snapshotOf,
      storeMessage_getD, dictGet_dictSet_self]

/-- Claim C6 witness: the concrete node with friend bob, sending the line
`hi`; both the success and the failure outcome are as stated. -/
theorem chat_with_friend_send_outcomes_witness :
    dictGet aliceWithBob.friends "bob" = some ⟨"10.0.0.5", 55888, true⟩
    ∧ (¬ "hi" = "") ∧ (¬ pyLower "hi" = "exit")
    ∧ (dictGetD (chat_with_friend aliceWithBob "bob" [⟨"hi", "09:00:00", true⟩]).state.conversations
          "bob" []
        = dictGetD aliceWithBob.conversations "bob" []
            ++ [⟨"09:00:00", aliceWithBob.username, "hi", Direction.outgoing⟩]
      ∧ persisted (chat_with_friend aliceWithBob "bob" [⟨"hi", "09:00:00", true⟩]).state
      ∧ dictGet (chat_with_friend aliceWithBob "bob" [⟨"hi", "09:00:00", false⟩]).state.friends "bob"
        = some ⟨"10.0.0.5", 55888, false⟩
      ∧ (chat_with_friend aliceWithBob "bob" [⟨"hi", "09:00:00", false⟩]).notes
        = [Notification.sendFailed]
      ∧ (chat_with_friend aliceWithBob "bob" [⟨"hi", "09:00:00", false⟩]).ret = none) :=
  ⟨rfl, by decide, by decide,
    chat_with_friend_send_outcomes aliceWithBob "bob" "hi" "09:00:00" ⟨"10.0.0.5", 55888, true⟩
      rfl (by decide) (by decide)⟩

/-- Claim C7: an inbound connection whose read is empty or fails to decode
(`decoded = none`) is closed with no state change, no reply and no
notification. -/
theorem handle_connection_drop_silent (st : NodeState) (a : Bool) (t : String) :
    handle_connection st none a t = ({ state := st, sent := [], notes := [] }, true) :=
  rfl

/-- Claim C8: after a save of the node's snapshot, a load reconstructs the
three maps structurally equal to the pre-save state. -/
theorem save_load_round_trip (st : NodeState) :
    (load_data (save_data st)).friends = st.friends
    ∧ (load_data (save_data st)).conversations = st.conversations
    ∧ (load_data (save_data st)).friend_requests = st.friend_requests := by
  have h := unpickleSnapshot_pickleSnapshot ⟨st.friends, st.conversations, st.friend_requests⟩
  simp [load_data, save_data, h]

/-- Claim C9: processing an incoming `friend_accept` or `friend_reject`
leaves the whole node state — in particular every pendingRequests entry —
unchanged, and sends nothing. -/
theorem friend_accept_reject_frame (st : NodeState) (u t : String) (a : Bool) :
    (process_incoming_message st (ProtoMsg.friend_accept u) a t).state = st
    ∧ (process_incoming_message st (ProtoMsg.friend_accept u) a t).sent = []
    ∧ (process_incoming_message st (ProtoMsg.friend_reject u) a t).state = st
    ∧ (process_incoming_message st (ProtoMsg.friend_reject u) a t).sent = [] :=
  ⟨rfl, rfl, rfl, rfl⟩

/-- Claim C10: an incoming `chat_message` is stored and persisted even when
the sender has no FriendRecord: the sender's conversation entry exists
afterwards and equals the prior sequence (empty if absent) with the
incoming Message appended; the friends map is never consulted. -/
theorem chat_message_no_friend_precondition (st : NodeState) (u c t : String) (a : Bool)
    (_h : dictContains st.friends u = false) :
    dictContains (process_incoming_message st (ProtoMsg.chat_message u c) a t).state.conversations u
      = true
    ∧ dictGet (process_incoming_message st (ProtoMsg.chat_message u c) a t).state.conversations u
      = some (dictGetD st.conversations u [] ++ [⟨t, u, c, Direction.incoming⟩])
    ∧ persisted (process_incoming_message st (ProtoMsg.chat_message u c) a t).state := by
  refine ⟨?_, ?_, rfl⟩
  · simp [process_incoming_message, save_data, storeMessage_contains]
  · simp [process_incoming_message, save_data, storeMessage_get]

/-- Claim C10 witness: dave has no FriendRecord on the concrete node, yet
his chat message is stored and persisted. -/
theorem chat_message_no_friend_precondition_witness :
    dictContains aliceNode.friends "dave" = false
    ∧ (dictContains (process_incoming_message aliceNode (ProtoMsg.chat_message "dave" "yo")
          true "08:00:00").state.conversations "dave" = true
      ∧ dictGet (process_incoming_message aliceNode (ProtoMsg.chat_message "dave" "yo")
          true "08:00:00").state.conversations "dave"
        = some (dictGetD aliceNode.conversations "dave" []
            ++ [⟨"08:00:00", "dave", "yo", Direction.incoming⟩])
      ∧ persisted (process_incoming_message aliceNode (ProtoMsg.chat_message "dave" "yo")
          true "08:00:00").state) :=
  ⟨rfl, chat_message_no_friend_precondition aliceNode "dave" "yo" "08:00:00" true rfl⟩

end P2P
